import Mathlib

/-!
Verification of the speech-to-text recorder extension.

The definitions below are shallow embeddings of the extension source:
the Sox invocation builders, the audio-file validator, the duration
estimator, the filename generator, the temp-directory sweep, the two
recorder-hook start guards, and the transcription pipeline with its
sidecar writes and error classification.  File-system state is passed
explicitly (a file is its size; a directory is a list of entries), and
fallible calls return explicit results.
-/

/-- `RECORDING_SAMPLE_RATE` from `constants.ts` (16 kHz). -/
def RECORDING_SAMPLE_RATE : Nat := 16000

/-- `RECORDING_FILE_FORMAT` from `constants.ts`. -/
def RECORDING_FILE_FORMAT : String := "wav"

/-- `RECORDING_MAX_DURATION` from `constants/index.ts` (seconds). -/
def RECORDING_MAX_DURATION : Nat := 60

/-- `MIN_VALID_FILE_SIZE` from `utils/audio.ts` (bytes). -/
def MIN_VALID_FILE_SIZE : Nat := 1024

/-- `SOX_CONFIG.CHANNELS` from `constants.ts`. -/
def SOX_CHANNELS : Nat := 1

/-- `SOX_CONFIG.BIT_DEPTH` from `constants.ts`. -/
def SOX_BIT_DEPTH : Nat := 16

/-- `SOX_CONFIG.ENCODING` from `constants.ts`. -/
def SOX_ENCODING : String := "signed-integer"

/-- `SOX_CONFIG.VERBOSE_LEVEL` from `constants.ts`. -/
def SOX_VERBOSE_LEVEL : Nat := 1

/-- A call to `spawn(cmd, args)`: the executable and its argument list. -/
structure SpawnCall where
  cmd : String
  args : List String
deriving DecidableEq

/-- `buildSoxCommand(outputPath)` from `utils/audio.ts`: the argument list for
the recording spawn of the first hook variant. -/
def buildSoxCommand (outputPath : String) : List String :=
  ["-d",
   "-c", toString SOX_CHANNELS,
   "-r", toString RECORDING_SAMPLE_RATE,
   "-b", toString SOX_BIT_DEPTH,
   "-e", SOX_ENCODING,
   "-V" ++ toString SOX_VERBOSE_LEVEL,
   outputPath]

/-- `createRecordingProcess(soxPath, filePath, duration)` from `utils/audio.ts`
(second variant): spawns Sox with a trailing `trim 0 <duration>` cap. -/
def createRecordingProcess (soxPath : String) (filePath : String) (duration : Nat) : SpawnCall :=
  { cmd := soxPath,
    args := ["-d",
             "-r", toString RECORDING_SAMPLE_RATE,
             filePath,
             "trim", "0", toString duration] }

/-- The inline `spawn("sox", [...])` of the `useAudioRecorder` variant that
builds its argument list in place. -/
def inlineRecorderSpawn (outputPath : String) : SpawnCall :=
  { cmd := "sox",
    args := ["-d",
             "-c", "1",
             "-r", toString RECORDING_SAMPLE_RATE,
             "-b", "16",
             "-e", "signed-integer",
             outputPath] }

/-- The argument list claimed by the spec for every capture launch: default
input device, 1 channel, 16000 Hz, 16-bit, signed-integer encoding. -/
def claimedBaseArgs : List String :=
  ["-d", "-c", "1", "-r", "16000", "-b", "16", "-e", "signed-integer"]

/-- The shape the spec claims for every capture invocation: the fixed encoding
arguments, the output path, and an optional trailing `trim 0 <seconds>`. -/
def MatchesClaimedInvocation (args : List String) (outputPath : String) : Prop :=
  args = claimedBaseArgs ++ [outputPath] ∨
    ∃ secs : String, args = claimedBaseArgs ++ [outputPath, "trim", "0", secs]

/-- Result of `validateAudioFile` (`AudioValidationResult` with the
`ErrorTypes` constants of `types.ts`). -/
inductive AudioValidation where
  | missing
  | empty
  | tooSmall
  | invalidFormat
  | valid
deriving DecidableEq

/-- `validateAudioFile(filePath)` from `utils/audio.ts`.  The file argument is
`none` when the file does not exist and `some size` otherwise; `probe` is
`none` when Sox is not installed and `some ok` when `sox --i` was run and
accepted (`true`) or rejected (`false`) the file. -/
def validateAudioFile (file : Option Nat) (probe : Option Bool) : AudioValidation :=
  match file with
  | none => .missing
  | some size =>
    if size = 0 then .empty
    else if size < MIN_VALID_FILE_SIZE then .tooSmall
    else
      match probe with
      | none => .valid
      | some ok => if ok then .valid else .invalidFormat

/-- `bytesPerSample` from `estimateDurationFromFileSize` (16-bit audio). -/
def bytesPerSample : Nat := 2

/-- `estimateDurationFromFileSize(filePath)` from `utils/audio.ts`:
`Math.round(size / (sampleRate * bytesPerSample))`. -/
def estimateDurationFromFileSize (size : Nat) : ℤ :=
  round ((size : ℚ) / ((RECORDING_SAMPLE_RATE : ℚ) * (bytesPerSample : ℚ)))

/-- `getAudioDuration(filePath)` from `utils/audio.ts`.  `probe` is `none`
when Sox is absent or the probe call failed to produce a number, and
`some d` when `sox --i -D` reported duration `d`; a non-positive probe
result is treated as an error and falls back to the size estimate. -/
def getAudioDuration (probe : Option ℚ) (size : Nat) : ℤ :=
  match probe with
  | none => estimateDurationFromFileSize size
  | some d => if d ≤ 0 then estimateDurationFromFileSize size else round d

/-- Claim C1 (counterexample): the spec fixes every capture launch to the full
encoding argument list (device, 1 channel, 16 kHz, 16-bit, signed-integer,
output path, optional trailing trim).  The launch that actually passes the
trim cap, `createRecordingProcess`, passes only device, sample rate, path and
trim — no channel, bit-depth or encoding flags — and `buildSoxCommand` inserts
an extra `-V1` verbosity flag, so neither matches the claimed shape. -/
theorem sox_invocation_not_fully_specified :
    ¬ MatchesClaimedInvocation
        (createRecordingProcess "/opt/homebrew/bin/sox" "/tmp/rec.wav" 60).args "/tmp/rec.wav" ∧
    ¬ MatchesClaimedInvocation (buildSoxCommand "/tmp/rec.wav") "/tmp/rec.wav" := by
  constructor
  · intro h
    rcases h with h | ⟨secs, h⟩
    · simp [createRecordingProcess, claimedBaseArgs] at h
    · have hlen := congrArg List.length h
      simp [createRecordingProcess, claimedBaseArgs] at hlen
  · intro h
    rcases h with h | ⟨secs, h⟩
    · simp [buildSoxCommand, claimedBaseArgs, SOX_CHANNELS, SOX_BIT_DEPTH, SOX_ENCODING,
        SOX_VERBOSE_LEVEL, RECORDING_SAMPLE_RATE] at h
    · have hlen := congrArg List.length h
      simp [buildSoxCommand, claimedBaseArgs] at hlen

/-- Claim C1 (amended): the three capture launches each pass a fixed argument
list, but they differ.  The inline spawn passes exactly the claimed encoding
arguments and the output path, with no trim; `buildSoxCommand` passes the
claimed arguments plus a `-V1` verbosity flag before the output path, with no
trim; `createRecordingProcess` passes only the default device, the 16000 Hz
sample rate, the output path and a trailing `trim 0 <seconds>` cap, omitting
the channel, bit-depth and encoding flags. -/
theorem sox_invocation_shapes (soxPath p : String) (d : Nat) :
    (inlineRecorderSpawn p).args = claimedBaseArgs ++ [p] ∧
    buildSoxCommand p = claimedBaseArgs ++ ["-V1", p] ∧
    (createRecordingProcess soxPath p d).cmd = soxPath ∧
    (createRecordingProcess soxPath p d).args =
      ["-d", "-r", "16000", p, "trim", "0", toString d] := by
  refine ⟨?_, ?_, rfl, ?_⟩ <;>
    simp [inlineRecorderSpawn, buildSoxCommand, createRecordingProcess, claimedBaseArgs,
      SOX_CHANNELS, SOX_BIT_DEPTH, SOX_ENCODING, SOX_VERBOSE_LEVEL, RECORDING_SAMPLE_RATE] <;>
    decide

/-- Claim C2: validation returns `missing` for an absent file, `empty` at size
zero, `tooSmall` strictly between zero and the 1024-byte threshold (in
particular at 1023 bytes), and at exactly the threshold it passes the size
checks and is valid when probing is unavailable or accepts the file. -/
theorem validateAudioFile_size_thresholds (probe : Option Bool) (s : Nat)
    (h0 : 0 < s) (hlt : s < MIN_VALID_FILE_SIZE) :
    validateAudioFile none probe = .missing ∧
    validateAudioFile (some 0) probe = .empty ∧
    validateAudioFile (some s) probe = .tooSmall ∧
    validateAudioFile (some (MIN_VALID_FILE_SIZE - 1)) probe = .tooSmall ∧
    validateAudioFile (some MIN_VALID_FILE_SIZE) none = .valid ∧
    validateAudioFile (some MIN_VALID_FILE_SIZE) (some true) = .valid := by
  refine ⟨rfl, ?_, ?_, ?_, rfl, rfl⟩
  · simp [validateAudioFile]
  · simp [validateAudioFile, Nat.pos_iff_ne_zero.mp h0, hlt]
  · simp [validateAudioFile, MIN_VALID_FILE_SIZE]

/-- Witness for `validateAudioFile_size_thresholds` at size 1023 with a
rejecting probe. -/
theorem validateAudioFile_size_thresholds_witness :
    validateAudioFile none (some false) = .missing ∧
    validateAudioFile (some 0) (some false) = .empty ∧
    validateAudioFile (some 1023) (some false) = .tooSmall ∧
    validateAudioFile (some (MIN_VALID_FILE_SIZE - 1)) (some false) = .tooSmall ∧
    validateAudioFile (some MIN_VALID_FILE_SIZE) none = .valid ∧
    validateAudioFile (some MIN_VALID_FILE_SIZE) (some true) = .valid :=
  validateAudioFile_size_thresholds (some false) 1023 (by decide) (by decide)

/-- Claim C7: when the probing tool is absent, validation degrades to the
size-only checks — any existing file at or above the threshold is valid — and
`invalidFormat` is never produced without the probing tool. -/
theorem validateAudioFile_degrades_without_probe (s : Nat) (f : Option Nat)
    (hge : MIN_VALID_FILE_SIZE ≤ s) :
    validateAudioFile (some s) none = .valid ∧
    validateAudioFile f none ≠ .invalidFormat := by
  constructor
  · simp only [MIN_VALID_FILE_SIZE] at hge
    simp only [validateAudioFile, MIN_VALID_FILE_SIZE]
    rw [if_neg (by omega), if_neg (by omega)]
  · cases f with
    | none => simp [validateAudioFile]
    | some n =>
      simp only [validateAudioFile]
      split
      · simp
      · split <;> simp

/-- Witness for `validateAudioFile_degrades_without_probe` at exactly the
threshold. -/
theorem validateAudioFile_degrades_without_probe_witness :
    validateAudioFile (some 1024) none = .valid ∧
    validateAudioFile (some 12) none ≠ .invalidFormat :=
  validateAudioFile_degrades_without_probe 1024 (some 12) (by decide)

/-- Claim C8: with the probing tool absent or failing, the duration estimate
is the file size divided by sample rate times bytes per sample, rounded to
the nearest second; a 96000-byte file estimates to exactly 3 seconds. -/
theorem getAudioDuration_fallback_estimate (size : Nat) (d : ℚ) (hd : d ≤ 0) :
    getAudioDuration none size = round ((size : ℚ) / (16000 * 2)) ∧
    getAudioDuration (some d) size = round ((size : ℚ) / (16000 * 2)) ∧
    getAudioDuration none 96000 = 3 := by
  refine ⟨?_, ?_, ?_⟩
  · simp [getAudioDuration, estimateDurationFromFileSize, RECORDING_SAMPLE_RATE, bytesPerSample]
  · simp [getAudioDuration, estimateDurationFromFileSize, RECORDING_SAMPLE_RATE, bytesPerSample, hd]
  · show estimateDurationFromFileSize 96000 = 3
    simp [estimateDurationFromFileSize, RECORDING_SAMPLE_RATE, bytesPerSample]
    norm_num [round_eq]

/-- Witness for `getAudioDuration_fallback_estimate` at 96000 bytes with a
failed probe parse. -/
theorem getAudioDuration_fallback_estimate_witness :
    getAudioDuration none 96000 = round ((96000 : ℚ) / (16000 * 2)) ∧
    getAudioDuration (some (-1)) 96000 = round ((96000 : ℚ) / (16000 * 2)) ∧
    getAudioDuration none 96000 = 3 :=
  getAudioDuration_fallback_estimate 96000 (-1) (by norm_num)

/-- A directory entry as seen by the cleanup sweep: its file name, its
modification time in milliseconds, and whether its `stat` or `unlink` call
fails when attempted. -/
structure FileEntry where
  name : String
  mtimeMs : Int
  statFails : Bool
  unlinkFails : Bool
deriving DecidableEq

/-- The `file.endsWith(".wav")` filter of `listAudioFiles`. -/
def isWavName (name : String) : Bool :=
  ("." ++ RECORDING_FILE_FORMAT).data.isSuffixOf name.data

/-- The `fileAge > maxAge` comparison of `cleanupOldAudioFiles`; `none`
stands for an infinite `maxAge`, for which the comparison is always false. -/
def ageExceeds (age : Int) : Option Int → Bool
  | none => false
  | some m => decide (age > m)

/-- One iteration of the `cleanupOldAudioFiles` loop: `stat` the file, delete
it when its age exceeds the threshold, and swallow (log-only) any per-file
failure.  Returns the deleted file name, if any. -/
def cleanupStep (now : Int) (maxAge : Option Int) (f : FileEntry) : Option String :=
  if f.statFails then none
  else if ageExceeds (now - f.mtimeMs) maxAge then
    if f.unlinkFails then none else some f.name
  else none

/-- `cleanupOldAudioFiles(directory, maxAge)` from `utils/audio.ts`: list the
`.wav` files of the directory and delete the ones older than `maxAge`,
continuing past per-file failures.  Returns the deleted file names. -/
def cleanupOldAudioFiles (now : Int) (maxAge : Option Int) (files : List FileEntry) : List String :=
  (files.filter fun f => isWavName f.name).filterMap (cleanupStep now maxAge)

/-- Claim C4 (counterexample): the sweep only considers files with the fixed
audio extension, so with `maxAge = 0` a directory holding a single
`notes.txt` whose modification time (0) is not the current instant (1000)
still has nothing deleted, although the claim requires every such file to be
deleted. -/
theorem cleanup_skips_non_audio_file :
    cleanupOldAudioFiles 1000 (some 0)
      [{ name := "notes.txt", mtimeMs := 0, statFails := false, unlinkFails := false }] = [] ∧
    ¬ ((0 : Int) = 1000) := by
  exact ⟨rfl, by decide⟩

/-- Claim C4 (amended): restricted to the files carrying the fixed `.wav`
audio extension, the sweep with `maxAge = 0` deletes exactly the ones whose
modification time is not the current instant; with `maxAge` infinite it
deletes nothing; and a per-file deletion failure is swallowed, the sweep
continuing over the remaining files unchanged. -/
theorem cleanupOldAudioFiles_behavior (now : Int) (maxAge : Option Int)
    (files pre post : List FileEntry) (bad : FileEntry)
    (hok : ∀ f ∈ files, f.statFails = false ∧ f.unlinkFails = false)
    (hpast : ∀ f ∈ files, f.mtimeMs ≤ now)
    (hbad : bad.unlinkFails = true) :
    cleanupOldAudioFiles now (some 0) files =
      (files.filter fun f => isWavName f.name && decide (f.mtimeMs ≠ now)).map FileEntry.name ∧
    cleanupOldAudioFiles now none files = [] ∧
    cleanupOldAudioFiles now maxAge (pre ++ bad :: post) =
      cleanupOldAudioFiles now maxAge pre ++ cleanupOldAudioFiles now maxAge post := by
  refine ⟨?_, ?_, ?_⟩
  · induction files with
    | nil => rfl
    | cons f fs ih =>
      have hf := hok f (by simp)
      have hfp := hpast f (by simp)
      have ih2 := ih (fun g hg => hok g (by simp [hg])) (fun g hg => hpast g (by simp [hg]))
      by_cases hw : isWavName f.name
      · by_cases hm : f.mtimeMs = now
        · simpa [cleanupOldAudioFiles, List.filter_cons, hw, hm, cleanupStep, ageExceeds,
            hf.1] using ih2
        · have hage : now - f.mtimeMs > 0 := by omega
          simpa [cleanupOldAudioFiles, List.filter_cons, hw, hm, cleanupStep, ageExceeds,
            hf.1, hf.2, hage] using ih2
      · simpa [cleanupOldAudioFiles, List.filter_cons, hw] using ih2
  · refine List.filterMap_eq_nil_iff.mpr ?_
    intro f hf
    simp [cleanupStep, ageExceeds]
  · by_cases hw : isWavName bad.name
    · simp [cleanupOldAudioFiles, List.filter_append, List.filter_cons, hw,
        List.filterMap_append, List.filterMap_cons, cleanupStep, hbad]
    · simp [cleanupOldAudioFiles, List.filter_append, List.filter_cons, hw,
        List.filterMap_append]

/-- Witness for `cleanupOldAudioFiles_behavior` on a directory holding an old
recording, a recording modified at the current instant, a stray text file,
and, for the continuation conjunct, a failing entry between two others. -/
theorem cleanupOldAudioFiles_behavior_witness :
    cleanupOldAudioFiles 1000 (some 0)
      [{ name := "recording-a.wav", mtimeMs := 20, statFails := false, unlinkFails := false },
       { name := "recording-b.wav", mtimeMs := 1000, statFails := false, unlinkFails := false },
       { name := "notes.txt", mtimeMs := 20, statFails := false, unlinkFails := false }] =
      (([{ name := "recording-a.wav", mtimeMs := 20, statFails := false, unlinkFails := false },
         { name := "recording-b.wav", mtimeMs := 1000, statFails := false, unlinkFails := false },
         { name := "notes.txt", mtimeMs := 20, statFails := false, unlinkFails := false }]
          : List FileEntry).filter fun f =>
            isWavName f.name && decide (f.mtimeMs ≠ 1000)).map FileEntry.name ∧
    cleanupOldAudioFiles 1000 none
      [{ name := "recording-a.wav", mtimeMs := 20, statFails := false, unlinkFails := false },
       { name := "recording-b.wav", mtimeMs := 1000, statFails := false, unlinkFails := false },
       { name := "notes.txt", mtimeMs := 20, statFails := false, unlinkFails := false }] = [] ∧
    cleanupOldAudioFiles 1000 (some 100)
      ([{ name := "recording-c.wav", mtimeMs := 10, statFails := false, unlinkFails := false }] ++
        { name := "recording-d.wav", mtimeMs := 10, statFails := false, unlinkFails := true } ::
        [{ name := "recording-e.wav", mtimeMs := 10, statFails := false, unlinkFails := false }]) =
      cleanupOldAudioFiles 1000 (some 100)
        [{ name := "recording-c.wav", mtimeMs := 10, statFails := false, unlinkFails := false }] ++
      cleanupOldAudioFiles 1000 (some 100)
        [{ name := "recording-e.wav", mtimeMs := 10, statFails := false, unlinkFails := false }] :=
  cleanupOldAudioFiles_behavior 1000 (some 100)
    [{ name := "recording-a.wav", mtimeMs := 20, statFails := false, unlinkFails := false },
     { name := "recording-b.wav", mtimeMs := 1000, statFails := false, unlinkFails := false },
     { name := "notes.txt", mtimeMs := 20, statFails := false, unlinkFails := false }]
    [{ name := "recording-c.wav", mtimeMs := 10, statFails := false, unlinkFails := false }]
    [{ name := "recording-e.wav", mtimeMs := 10, statFails := false, unlinkFails := false }]
    { name := "recording-d.wav", mtimeMs := 10, statFails := false, unlinkFails := true }
    (by decide) (by decide) (by decide)

/-- The mutable state of the first `useAudioRecorder` variant: the
`isRecording` flag, the current output path, the spawned Sox process (if
any), and the surfaced error. -/
structure RecorderStateV1 where
  isRecording : Bool
  recordingPath : Option String
  recordingProcess : Option SpawnCall
  error : Option String
deriving DecidableEq

/-- Everything observable about one `startRecording` call of the first
variant: the state afterwards, the toast titles shown, the value returned to
the caller, and the processes spawned during the call. -/
structure StartResultV1 where
  state : RecorderStateV1
  toasts : List String
  returned : Option String
  spawned : List SpawnCall
deriving DecidableEq

/-- `startRecording` of the first `useAudioRecorder` variant: clear the
error, reject when already recording (failure toast, `null` return), reject
when Sox is absent (error state, `null` return), otherwise spawn Sox on the
generated path and enter the recording state. -/
def startRecordingV1 (soxPath : Option String) (outputPath : String)
    (s : RecorderStateV1) : StartResultV1 :=
  let s0 : RecorderStateV1 := { s with error := none }
  if s0.isRecording then
    { state := s0, toasts := ["Already Recording"], returned := none, spawned := [] }
  else
    match soxPath with
    | none =>
      { state := { s0 with error := some "SOX_NOT_INSTALLED" },
        toasts := [], returned := none, spawned := [] }
    | some sox =>
      let call : SpawnCall := { cmd := sox, args := buildSoxCommand outputPath }
      { state := { s0 with isRecording := true,
                           recordingPath := some outputPath,
                           recordingProcess := some call },
        toasts := ["Recording started"], returned := some outputPath, spawned := [call] }

/-- The mutable state of the second `useAudioRecorder` variant. -/
structure RecorderStateV2 where
  isRecording : Bool
  recordingPath : Option String
  recordingProcess : Option SpawnCall
  error : Option String
deriving DecidableEq

/-- Everything observable about one `startRecording` call of the second
variant (it returns void, so there is no returned value). -/
structure StartResultV2 where
  state : RecorderStateV2
  toasts : List String
  spawned : List SpawnCall
deriving DecidableEq

/-- `startRecording` of the second `useAudioRecorder` variant: the guard
`if (isRecording || !soxPathRef.current) return` rejects silently, otherwise
it clears the error, enters the recording state, shows the recording toast
and spawns Sox with the trim cap. -/
def startRecordingV2 (soxPath : Option String) (outputPath : String)
    (s : RecorderStateV2) : StartResultV2 :=
  match soxPath with
  | none => { state := s, toasts := [], spawned := [] }
  | some sox =>
    if s.isRecording then { state := s, toasts := [], spawned := [] }
    else
      let call := createRecordingProcess sox outputPath RECORDING_MAX_DURATION
      { state := { s with error := none,
                          isRecording := true,
                          recordingPath := some outputPath,
                          recordingProcess := some call },
        toasts := ["Recording..."], spawned := [call] }

/-- Claim C3 (counterexample): calling `startRecording` of the second hook
variant while a session is already recording spawns nothing and leaves the
state untouched, but surfaces no AlreadyRecording condition at all — no
toast is shown, no error is set and nothing is returned — whereas the claim
requires every such call to be rejected with an AlreadyRecording condition. -/
theorem startRecordingV2_silent_rejection :
    startRecordingV2 (some "/opt/homebrew/bin/sox") "/tmp/new.wav"
      { isRecording := true, recordingPath := some "/tmp/prev.wav",
        recordingProcess := some { cmd := "/opt/homebrew/bin/sox", args := ["-d"] },
        error := none } =
    { state := { isRecording := true, recordingPath := some "/tmp/prev.wav",
                 recordingProcess := some { cmd := "/opt/homebrew/bin/sox", args := ["-d"] },
                 error := none },
      toasts := [], spawned := [] } := rfl

/-- Claim C3 (amended): while a session is recording, a further `start` call
never spawns a process and leaves the recording state, path and process
untouched; the first hook variant rejects it surfacing an Already Recording
failure toast and returning null, while the second variant's guard rejects
it silently, surfacing nothing. -/
theorem start_while_recording_rejected (sox1 sox2 : Option String) (o1 o2 : String)
    (s1 : RecorderStateV1) (s2 : RecorderStateV2)
    (h1 : s1.isRecording = true) (h2 : s2.isRecording = true) :
    (startRecordingV1 sox1 o1 s1).toasts = ["Already Recording"] ∧
    (startRecordingV1 sox1 o1 s1).returned = none ∧
    (startRecordingV1 sox1 o1 s1).spawned = [] ∧
    (startRecordingV1 sox1 o1 s1).state.isRecording = true ∧
    (startRecordingV1 sox1 o1 s1).state.recordingProcess = s1.recordingProcess ∧
    (startRecordingV1 sox1 o1 s1).state.recordingPath = s1.recordingPath ∧
    (startRecordingV2 sox2 o2 s2).state = s2 ∧
    (startRecordingV2 sox2 o2 s2).toasts = [] ∧
    (startRecordingV2 sox2 o2 s2).spawned = [] := by
  have hv2 : startRecordingV2 sox2 o2 s2 = { state := s2, toasts := [], spawned := [] } := by
    cases sox2 with
    | none => rfl
    | some sox => simp [startRecordingV2, h2]
  simp [startRecordingV1, h1, hv2]

/-- Witness for `start_while_recording_rejected` on concrete recording
states. -/
theorem start_while_recording_rejected_witness :
    (startRecordingV1 (some "/usr/bin/sox") "/tmp/b.wav"
        { isRecording := true, recordingPath := some "/tmp/a.wav",
          recordingProcess := some { cmd := "/usr/bin/sox", args := ["-d"] },
          error := none }).toasts = ["Already Recording"] ∧
    (startRecordingV1 (some "/usr/bin/sox") "/tmp/b.wav"
        { isRecording := true, recordingPath := some "/tmp/a.wav",
          recordingProcess := some { cmd := "/usr/bin/sox", args := ["-d"] },
          error := none }).returned = none ∧
    (startRecordingV1 (some "/usr/bin/sox") "/tmp/b.wav"
        { isRecording := true, recordingPath := some "/tmp/a.wav",
          recordingProcess := some { cmd := "/usr/bin/sox", args := ["-d"] },
          error := none }).spawned = [] ∧
    (startRecordingV1 (some "/usr/bin/sox") "/tmp/b.wav"
        { isRecording := true, recordingPath := some "/tmp/a.wav",
          recordingProcess := some { cmd := "/usr/bin/sox", args := ["-d"] },
          error := none }).state.isRecording = true ∧
    (startRecordingV1 (some "/usr/bin/sox") "/tmp/b.wav"
        { isRecording := true, recordingPath := some "/tmp/a.wav",
          recordingProcess := some { cmd := "/usr/bin/sox", args := ["-d"] },
          error := none }).state.recordingProcess =
      (({ isRecording := true, recordingPath := some "/tmp/a.wav",
          recordingProcess := some { cmd := "/usr/bin/sox", args := ["-d"] },
          error := none } : RecorderStateV1)).recordingProcess ∧
    (startRecordingV1 (some "/usr/bin/sox") "/tmp/b.wav"
        { isRecording := true, recordingPath := some "/tmp/a.wav",
          recordingProcess := some { cmd := "/usr/bin/sox", args := ["-d"] },
          error := none }).state.recordingPath =
      (({ isRecording := true, recordingPath := some "/tmp/a.wav",
          recordingProcess := some { cmd := "/usr/bin/sox", args := ["-d"] },
          error := none } : RecorderStateV1)).recordingPath ∧
    (startRecordingV2 (some "/usr/bin/sox") "/tmp/b.wav"
        { isRecording := true, recordingPath := some "/tmp/a.wav",
          recordingProcess := none, error := none }).state =
      { isRecording := true, recordingPath := some "/tmp/a.wav",
        recordingProcess := none, error := none } ∧
    (startRecordingV2 (some "/usr/bin/sox") "/tmp/b.wav"
        { isRecording := true, recordingPath := some "/tmp/a.wav",
          recordingProcess := none, error := none }).toasts = [] ∧
    (startRecordingV2 (some "/usr/bin/sox") "/tmp/b.wav"
        { isRecording := true, recordingPath := some "/tmp/a.wav",
          recordingProcess := none, error := none }).spawned = [] :=
  start_while_recording_rejected (some "/usr/bin/sox") (some "/usr/bin/sox")
    "/tmp/b.wav" "/tmp/b.wav"
    { isRecording := true, recordingPath := some "/tmp/a.wav",
      recordingProcess := some { cmd := "/usr/bin/sox", args := ["-d"] }, error := none }
    { isRecording := true, recordingPath := some "/tmp/a.wav",
      recordingProcess := none, error := none }
    rfl rfl

/-- `TranscriptionResult` from `types.ts` (the fields set by
`transcribeAudio` before saving). -/
structure TranscriptionResult where
  text : String
  timestamp : String
deriving DecidableEq

/-- One `fs.writeJSON(path, value, options)` call: the target path, the
object fields in order (all string-valued here), and the `spaces`
indentation option (absent when not passed). -/
structure WriteJsonCall where
  path : String
  fields : List (String × String)
  spaces : Option Nat
deriving DecidableEq

/-- The regex replace of `saveTranscription`: swap the final dot-extension
for `.json`; a string with no final extension is left unchanged. -/
def replaceLastExtWithJson (s : String) : String :=
  if (s.data.reverse.takeWhile fun c => c != '.').length = s.data.reverse.length then s
  else if (s.data.reverse.takeWhile fun c => c != '.').length = 0 then s
  else
    String.mk
      ((s.data.reverse.drop
          ((s.data.reverse.takeWhile fun c => c != '.').length + 1)).reverse ++ ".json".data)

/-- The regex replace of the history command: swap a trailing `.wav` for
`.json`; other strings are left unchanged. -/
def replaceWavWithJson (s : String) : String :=
  if ".wav".data.isSuffixOf s.data then
    String.mk (s.data.take (s.data.length - 4) ++ ".json".data)
  else s

/-- `saveTranscription(audioFilePath, transcriptionData)` from
`utils/ai/transcription.ts`: write `{ text, timestamp, audioFile }` next to
the audio file with two-space indentation. -/
def saveTranscription (audioFilePath : String) (t : TranscriptionResult) : WriteJsonCall :=
  { path := replaceLastExtWithJson audioFilePath,
    fields := [("text", t.text), ("timestamp", t.timestamp), ("audioFile", audioFilePath)],
    spaces := some 2 }

/-- The `fs.writeJSON` call of `handleTranscribe` in
`transcription-history.tsx`: write `{ text, timestamp }` next to the audio
file, with no indentation option. -/
def historyTranscribeWrite (filePath : String) (text now : String) : WriteJsonCall :=
  { path := replaceWavWithJson filePath,
    fields := [("text", text), ("timestamp", now)],
    spaces := none }

/-- Rebuilding a string from its character data is the identity. -/
theorem string_mk_data (s : String) : String.mk s.data = s := rfl

/-- `takeWhile` stops exactly at the first failing element. -/
theorem takeWhile_append_stop (p : Char → Bool) (l1 l2 : List Char) (x : Char)
    (h1 : ∀ a ∈ l1, p a = true) (hx : p x = false) :
    (l1 ++ x :: l2).takeWhile p = l1 := by
  induction l1 with
  | nil => simp [List.takeWhile_cons, hx]
  | cons a l ih =>
    have ha := h1 a (by simp)
    simp [List.takeWhile_cons, ha]
    exact ih fun b hb => h1 b (by simp [hb])

/-- Dropping past a distinguished element of a concatenation. -/
theorem drop_append_cons (l1 l2 : List Char) (x : Char) :
    (l1 ++ x :: l2).drop (l1.length + 1) = l2 := by
  induction l1 with
  | nil => simp
  | cons a l ih =>
    simp only [List.cons_append, List.length_cons, List.drop_succ_cons]
    exact ih

/-- On a path ending in `.wav`, the generic extension replace of
`saveTranscription` yields the `.json` sibling. -/
theorem replaceLastExtWithJson_wav (b : String) :
    replaceLastExtWithJson (b ++ ".wav") = b ++ ".json" := by
  have hrev : (b ++ ".wav").data.reverse = ['v', 'a', 'w'] ++ '.' :: b.data.reverse := by
    rw [String.data_append]
    simp [List.reverse_append]
  have htw : ((b ++ ".wav").data.reverse.takeWhile fun c => c != '.') = ['v', 'a', 'w'] := by
    rw [hrev]
    exact takeWhile_append_stop _ _ _ _ (by decide) (by decide)
  have hlen : (b ++ ".wav").data.reverse.length = b.data.length + 4 := by
    rw [String.data_append]
    simp
  unfold replaceLastExtWithJson
  rw [htw, hlen, if_neg (by simp), if_neg (by simp)]
  have hdrop : (b ++ ".wav").data.reverse.drop (3 + 1) = b.data.reverse := by
    rw [hrev]
    exact drop_append_cons ['v', 'a', 'w'] b.data.reverse '.'
  simp only [List.length_cons, List.length_nil]
  rw [hdrop, List.reverse_reverse, ← String.data_append, string_mk_data]

/-- On a path ending in `.wav`, the history replace also yields the `.json`
sibling. -/
theorem replaceWavWithJson_wav (b : String) :
    replaceWavWithJson (b ++ ".wav") = b ++ ".json" := by
  have hsuf : (".wav".data.isSuffixOf (b ++ ".wav").data) = true := by
    rw [List.isSuffixOf_iff_suffix, String.data_append]
    exact List.suffix_append _ _
  have hlen : (b ++ ".wav").data.length - 4 = b.data.length := by
    rw [String.data_append]
    simp
  unfold replaceWavWithJson
  rw [if_pos hsuf, hlen, String.data_append]
  rw [List.take_left, ← String.data_append, string_mk_data]

/-- Claim C5 (counterexample): the sidecar written by the history command
after a successful transcription carries only the `text` and `timestamp`
fields — no `audioFile` field — and passes no two-space indentation option,
contradicting the claimed sidecar shape. -/
theorem history_sidecar_missing_fields :
    "audioFile" ∉
      (historyTranscribeWrite "/tmp/recording-1.wav" "hello"
        "2025-01-01T00:00:00.000Z").fields.map Prod.fst ∧
    (historyTranscribeWrite "/tmp/recording-1.wav" "hello"
        "2025-01-01T00:00:00.000Z").spaces ≠ some 2 := by
  constructor <;> simp [historyTranscribeWrite]

/-- Claim C5 (amended): the sidecar written by `saveTranscription` is stored
under the same basename as its audio file with a `.json` extension and holds
exactly the `text`, `timestamp` and `audioFile` fields with two-space
indentation; the history command then overwrites the same `.json` path with
only `text` and `timestamp` and no indentation option. -/
theorem sidecar_write_shapes (b text ts now : String) :
    (saveTranscription (b ++ ".wav") { text := text, timestamp := ts }).path = b ++ ".json" ∧
    (saveTranscription (b ++ ".wav") { text := text, timestamp := ts }).fields =
      [("text", text), ("timestamp", ts), ("audioFile", b ++ ".wav")] ∧
    (saveTranscription (b ++ ".wav") { text := text, timestamp := ts }).spaces = some 2 ∧
    (historyTranscribeWrite (b ++ ".wav") text now).path = b ++ ".json" ∧
    (historyTranscribeWrite (b ++ ".wav") text now).fields =
      [("text", text), ("timestamp", now)] ∧
    (historyTranscribeWrite (b ++ ".wav") text now).spaces = none := by
  refine ⟨?_, rfl, rfl, ?_, rfl, rfl⟩
  · exact replaceLastExtWithJson_wav b
  · exact replaceWavWithJson_wav b

/-- JS `String.prototype.includes`: `pat` occurs contiguously in `s`. -/
def containsSub (s pat : String) : Bool :=
  (List.range (s.data.length + 1)).any fun i => pat.data.isPrefixOf (s.data.drop i)

/-- The rate-limit test of the `transcribeAudio` catch block:
`message.includes("rate limit") || message.includes("429") ||
message.includes("too many requests")`. -/
def rateLimitIndicator (msg : String) : Bool :=
  containsSub msg "rate limit" || containsSub msg "429" || containsSub msg "too many requests"

/-- The rate-limit message thrown by `transcribeAudio`. -/
def RATE_LIMIT_MESSAGE : String :=
  "Groq API rate limit exceeded. Please try again later or reduce the length of your audio file."

/-- The malformed-input message thrown by `transcribeAudio`. -/
def BAD_REQUEST_MESSAGE : String :=
  "The API couldn\x27t process this audio file. It might be corrupted or in an unsupported format."

/-- The missing-key message thrown by `transcribeAudio`. -/
def API_KEY_MESSAGE : String :=
  "Groq API key is not set. Please set it in the extension preferences."

/-- The catch block of `transcribeAudio`: classify the upstream error message
into the rate-limit message, the malformed-input message, or a generic
wrapper around the original text. -/
def classifyTranscriptionError (msg : String) : String :=
  if rateLimitIndicator msg then RATE_LIMIT_MESSAGE
  else if containsSub msg "400" then BAD_REQUEST_MESSAGE
  else "Failed to transcribe audio: " ++ msg

/-- Which side effects a `transcribeAudio` call performed: constructing the
Groq client, opening the audio file read stream, calling the transcription
service, and writing the sidecar transcript. -/
structure TranscribeEffects where
  clientConstructed : Bool
  fileRead : Bool
  serviceCalled : Bool
  sidecarWritten : Bool
deriving DecidableEq

/-- No side effects at all. -/
def noEffects : TranscribeEffects :=
  { clientConstructed := false, fileRead := false, serviceCalled := false,
    sidecarWritten := false }

/-- The JS falsiness test `!preferences.apiKey`: the key preference is unset
or the empty string. -/
def apiKeyMissing : Option String → Bool
  | none => true
  | some k => k.isEmpty

/-- `transcribeAudio(filePath)` from `utils/ai/transcription.ts`.  `apiKey`
is the preference value; `service` is the outcome of the Groq transcription
call (`.error msg` when the SDK throws an error with that message); `now` is
the ISO timestamp taken on success.  Returns the result surfaced to the
caller together with the effects performed. -/
def transcribeAudio (apiKey : Option String) (service : Except String String)
    (now : String) (filePath : String) :
    Except String (TranscriptionResult × WriteJsonCall) × TranscribeEffects :=
  if apiKeyMissing apiKey then
    (.error API_KEY_MESSAGE, noEffects)
  else
    match service with
    | .error e =>
      (.error (classifyTranscriptionError e),
       { clientConstructed := true, fileRead := true, serviceCalled := true,
         sidecarWritten := false })
    | .ok text =>
      let result : TranscriptionResult := { text := text, timestamp := now }
      (.ok (result, saveTranscription filePath result),
       { clientConstructed := true, fileRead := true, serviceCalled := true,
         sidecarWritten := true })

/-- Claim C9: a failing transcription call surfaces the upstream error
classified only by its message — rate-limit indicators (`rate limit`, `429`,
`too many requests`) map to the rate-limit message, otherwise `400` maps to
the malformed-input message, and anything else maps to the generic wrapper
around the original text. -/
theorem transcribe_error_classification (apiKey : Option String) (msg now fp : String)
    (hkey : apiKeyMissing apiKey = false) :
    (transcribeAudio apiKey (.error msg) now fp).1 =
      .error (classifyTranscriptionError msg) ∧
    (rateLimitIndicator msg = true → classifyTranscriptionError msg = RATE_LIMIT_MESSAGE) ∧
    (rateLimitIndicator msg = false → containsSub msg "400" = true →
      classifyTranscriptionError msg = BAD_REQUEST_MESSAGE) ∧
    (rateLimitIndicator msg = false → containsSub msg "400" = false →
      classifyTranscriptionError msg = "Failed to transcribe audio: " ++ msg) := by
  refine ⟨?_, ?_, ?_, ?_⟩
  · simp [transcribeAudio, hkey]
  · intro h
    simp [classifyTranscriptionError, h]
  · intro h h4
    simp [classifyTranscriptionError, h, h4]
  · intro h h4
    simp [classifyTranscriptionError, h, h4]

/-- Witness for `transcribe_error_classification` on a rate-limited call, a
malformed-input call, and a generic failure. -/
theorem transcribe_error_classification_witness :
    (transcribeAudio (some "gsk_key") (.error "HTTP 429") "now" "/tmp/a.wav").1 =
      .error (classifyTranscriptionError "HTTP 429") ∧
    classifyTranscriptionError "HTTP 429" = RATE_LIMIT_MESSAGE ∧
    classifyTranscriptionError "HTTP 400" = BAD_REQUEST_MESSAGE ∧
    classifyTranscriptionError "boom" = "Failed to transcribe audio: " ++ "boom" :=
  ⟨(transcribe_error_classification (some "gsk_key") "HTTP 429" "now" "/tmp/a.wav"
      (by decide)).1,
   (transcribe_error_classification (some "gsk_key") "HTTP 429" "now" "/tmp/a.wav"
      (by decide)).2.1 (by decide),
   (transcribe_error_classification (some "gsk_key") "HTTP 400" "now" "/tmp/a.wav"
      (by decide)).2.2.1 (by decide) (by decide),
   (transcribe_error_classification (some "gsk_key") "boom" "now" "/tmp/a.wav"
      (by decide)).2.2.2 (by decide) (by decide)⟩

/-- Claim C10: when the configured API key is unset or empty,
`transcribeAudio` fails with the missing-key message before constructing the
client, reading the audio file or contacting the service, and writes no
sidecar transcript. -/
theorem transcribeAudio_missing_api_key (apiKey : Option String)
    (service : Except String String) (now filePath : String)
    (h : apiKeyMissing apiKey = true) :
    transcribeAudio apiKey service now filePath = (.error API_KEY_MESSAGE, noEffects) ∧
    (transcribeAudio apiKey service now filePath).2.clientConstructed = false ∧
    (transcribeAudio apiKey service now filePath).2.fileRead = false ∧
    (transcribeAudio apiKey service now filePath).2.serviceCalled = false ∧
    (transcribeAudio apiKey service now filePath).2.sidecarWritten = false := by
  simp [transcribeAudio, h, noEffects]

/-- Witness for `transcribeAudio_missing_api_key` with an empty key
preference. -/
theorem transcribeAudio_missing_api_key_witness :
    transcribeAudio (some "") (.ok "hello") "now" "/tmp/a.wav" =
      (.error API_KEY_MESSAGE, noEffects) ∧
    (transcribeAudio (some "") (.ok "hello") "now" "/tmp/a.wav").2.clientConstructed = false ∧
    (transcribeAudio (some "") (.ok "hello") "now" "/tmp/a.wav").2.fileRead = false ∧
    (transcribeAudio (some "") (.ok "hello") "now" "/tmp/a.wav").2.serviceCalled = false ∧
    (transcribeAudio (some "") (.ok "hello") "now" "/tmp/a.wav").2.sidecarWritten = false :=
  transcribeAudio_missing_api_key (some "") (.ok "hello") "now" "/tmp/a.wav" (by decide)

/-- The wall-clock instant read by `new Date()` when a filename is generated,
split into the calendar fields that `toISOString` prints. -/
structure DateTime where
  year : Nat
  month : Nat
  day : Nat
  hour : Nat
  minute : Nat
  second : Nat
  millis : Nat
deriving DecidableEq

/-- The field ranges of a real calendar instant (year below 10000, as
required for the fixed-width `toISOString` format). -/
def ValidDateTime (t : DateTime) : Prop :=
  t.year < 10000 ∧ 1 ≤ t.month ∧ t.month ≤ 12 ∧ 1 ≤ t.day ∧ t.day ≤ 31 ∧
    t.hour < 24 ∧ t.minute < 60 ∧ t.second < 60 ∧ t.millis < 1000

/-- The decimal digit character for `n` (meaningful for `n < 10`). -/
def digitChar (n : Nat) : Char := Char.ofNat (48 + n)

/-- Two-digit zero-padded decimal rendering. -/
def pad2 (n : Nat) : List Char := [digitChar (n / 10), digitChar (n % 10)]

/-- Three-digit zero-padded decimal rendering. -/
def pad3 (n : Nat) : List Char := [digitChar (n / 100), digitChar (n / 10 % 10), digitChar (n % 10)]

/-- Four-digit zero-padded decimal rendering. -/
def pad4 (n : Nat) : List Char :=
  [digitChar (n / 1000), digitChar (n / 100 % 10), digitChar (n / 10 % 10), digitChar (n % 10)]

/-- `Date.prototype.toISOString`: the fixed-width
`YYYY-MM-DDTHH:MM:SS.mmmZ` rendering of the instant, as characters. -/
def toISOChars (t : DateTime) : List Char :=
  pad4 t.year ++ '-' :: pad2 t.month ++ '-' :: pad2 t.day ++ 'T' :: pad2 t.hour ++
    ':' :: pad2 t.minute ++ ':' :: pad2 t.second ++ '.' :: pad3 t.millis ++ ['Z']

/-- One character of the `replace(/[:.]/g, "-")` call of
`generateAudioFilename`. -/
def sanitizeChar (c : Char) : Char := if c = ':' ∨ c = '.' then '-' else c

/-- The `replace(/[:.]/g, "-")` call of `generateAudioFilename`. -/
def sanitizeTimestamp (cs : List Char) : List Char := cs.map sanitizeChar

/-- `generateAudioFilename(directory)` from `utils/audio.ts`:
`path.join(directory, "recording-" + timestamp + "." + RECORDING_FILE_FORMAT)`
with the sanitized ISO timestamp of the current instant. -/
def generateAudioFilename (directory : String) (t : DateTime) : String :=
  directory ++ "/" ++ "recording-" ++ String.mk (sanitizeTimestamp (toISOChars t)) ++ "." ++
    RECORDING_FILE_FORMAT

/-- Taking the character data of a rebuilt string is the identity. -/
theorem data_string_mk (l : List Char) : (String.mk l).data = l := rfl

/-- Sanitizing distinct decimal digits keeps them distinct. -/
theorem sanDigit_inj :
    ∀ n, n < 10 → ∀ m, m < 10 →
      sanitizeChar (digitChar n) = sanitizeChar (digitChar m) → n = m := by decide

/-- A sanitized character is never a colon or a period. -/
theorem sanitizeChar_no_sep (c : Char) : sanitizeChar c ≠ ':' ∧ sanitizeChar c ≠ '.' := by
  unfold sanitizeChar
  split
  · exact ⟨by decide, by decide⟩
  · rename_i h
    push_neg at h
    exact h

/-- Sanitized timestamps of instants that differ in some second-level field
are distinct, because every field sits at a fixed position of the
fixed-width rendering. -/
theorem sanitized_iso_inj (t1 t2 : DateTime)
    (h1 : ValidDateTime t1) (h2 : ValidDateTime t2)
    (heq : sanitizeTimestamp (toISOChars t1) = sanitizeTimestamp (toISOChars t2)) :
    t1.year = t2.year ∧ t1.month = t2.month ∧ t1.day = t2.day ∧
      t1.hour = t2.hour ∧ t1.minute = t2.minute ∧ t1.second = t2.second := by
  obtain ⟨hy1, hmo1, hmo1b, hd1, hd1b, hh1, hmi1, hs1, hms1⟩ := h1
  obtain ⟨hy2, hmo2, hmo2b, hd2, hd2b, hh2, hmi2, hs2, hms2⟩ := h2
  simp only [sanitizeTimestamp, toISOChars, pad4, pad3, pad2, List.map_cons, List.map_append,
    List.map_nil, List.cons_append, List.nil_append, List.cons.injEq] at heq
  obtain ⟨e1, e2, e3, e4, -, e5, e6, -, e7, e8, -, e9, e10, -, e11, e12, -, e13, e14, -,
    e15, e16, e17, -⟩ := heq
  refine ⟨?_, ?_, ?_, ?_, ?_, ?_⟩
  · have d1 := sanDigit_inj _ (by omega) _ (by omega) e1
    have d2 := sanDigit_inj _ (by omega) _ (by omega) e2
    have d3 := sanDigit_inj _ (by omega) _ (by omega) e3
    have d4 := sanDigit_inj _ (by omega) _ (by omega) e4
    omega
  · have d1 := sanDigit_inj _ (by omega) _ (by omega) e5
    have d2 := sanDigit_inj _ (by omega) _ (by omega) e6
    omega
  · have d1 := sanDigit_inj _ (by omega) _ (by omega) e7
    have d2 := sanDigit_inj _ (by omega) _ (by omega) e8
    omega
  · have d1 := sanDigit_inj _ (by omega) _ (by omega) e9
    have d2 := sanDigit_inj _ (by omega) _ (by omega) e10
    omega
  · have d1 := sanDigit_inj _ (by omega) _ (by omega) e11
    have d2 := sanDigit_inj _ (by omega) _ (by omega) e12
    omega
  · have d1 := sanDigit_inj _ (by omega) _ (by omega) e13
    have d2 := sanDigit_inj _ (by omega) _ (by omega) e14
    omega

/-- Claim C6: filenames generated at instants whose second-level timestamps
differ are distinct; every generated name is the directory joined with
`recording-`, the ISO timestamp with every colon and period replaced by a
hyphen, and the fixed `.wav` extension; and no colon or period from the
timestamp survives in the sanitized part. -/
theorem generateAudioFilename_collision_free (dir : String) (t1 t2 : DateTime)
    (h1 : ValidDateTime t1) (h2 : ValidDateTime t2)
    (hsec : ¬ (t1.year = t2.year ∧ t1.month = t2.month ∧ t1.day = t2.day ∧
               t1.hour = t2.hour ∧ t1.minute = t2.minute ∧ t1.second = t2.second)) :
    generateAudioFilename dir t1 ≠ generateAudioFilename dir t2 ∧
    generateAudioFilename dir t1 =
      dir ++ "/" ++ "recording-" ++ String.mk (sanitizeTimestamp (toISOChars t1)) ++ "." ++
        "wav" ∧
    ((sanitizeTimestamp (toISOChars t1)).all fun c => c != ':' && c != '.') = true := by
  refine ⟨?_, rfl, ?_⟩
  · intro h
    have hd := congrArg String.data h
    simp only [generateAudioFilename, String.data_append, data_string_mk,
      List.append_assoc] at hd
    have h3 := List.append_cancel_left hd
    have h4 := List.append_cancel_left h3
    have h5 := List.append_cancel_left h4
    have h6 := List.append_cancel_right h5
    exact hsec (sanitized_iso_inj t1 t2 h1 h2 h6)
  · rw [List.all_eq_true]
    intro c hc
    simp only [sanitizeTimestamp] at hc
    rw [List.mem_map] at hc
    obtain ⟨a, -, ha⟩ := hc
    have := sanitizeChar_no_sep a
    rw [ha] at this
    simp [bne_iff_ne, this.1, this.2]

/-- Witness for `generateAudioFilename_collision_free` at two instants one
second apart. -/
theorem generateAudioFilename_collision_free_witness :
    generateAudioFilename "/tmp"
        { year := 2025, month := 3, day := 14, hour := 9, minute := 26, second := 53,
          millis := 589 } ≠
      generateAudioFilename "/tmp"
        { year := 2025, month := 3, day := 14, hour := 9, minute := 26, second := 54,
          millis := 589 } ∧
    generateAudioFilename "/tmp"
        { year := 2025, month := 3, day := 14, hour := 9, minute := 26, second := 53,
          millis := 589 } =
      "/tmp" ++ "/" ++ "recording-" ++
        String.mk (sanitizeTimestamp (toISOChars
          { year := 2025, month := 3, day := 14, hour := 9, minute := 26, second := 53,
            millis := 589 })) ++ "." ++ "wav" ∧
    ((sanitizeTimestamp (toISOChars
        { year := 2025, month := 3, day := 14, hour := 9, minute := 26, second := 53,
          millis := 589 })).all fun c => c != ':' && c != '.') = true :=
  generateAudioFilename_collision_free "/tmp"
    { year := 2025, month := 3, day := 14, hour := 9, minute := 26, second := 53,
      millis := 589 }
    { year := 2025, month := 3, day := 14, hour := 9, minute := 26, second := 54,
      millis := 589 }
    (by unfold ValidDateTime; decide) (by unfold ValidDateTime; decide) (by decide)
